import Mathlib

/-!
Shallow embedding of the track-selection / compliance / seeded-matching core
of the changeEpisodesLanguage repository (src/app/mkv_tools.py, src/app/utils.py),
together with theorems settling the specification claims.

Modelling conventions:
* Python strings are Lean String values; character-level operations are defined
  over String.data so that every definition reduces in the kernel.
* A Python Optional value is a Lean Option.
* Python truthiness (None, empty string and the integer 0 are falsy) is modelled
  explicitly where the source relies on it.
* Python dict-shaped mkvmerge track records are modelled by the Track structure
  holding exactly the fields the core reads: id, type, properties.language,
  properties.track_name, properties.default_track.
* Python sets are modelled as lists used only through membership / any, so the
  modelling order never influences the result.
-/

/-- Python str.strip on a string value: drop leading and trailing whitespace. -/
def pyStrip (s : String) : String :=
  ⟨((s.data.dropWhile Char.isWhitespace).reverse.dropWhile Char.isWhitespace).reverse⟩

/-- Python str.lower, restricted to the ASCII case mapping. -/
def pyLower (s : String) : String :=
  ⟨s.data.map Char.toLower⟩

/-- Does pat occur as a contiguous sublist of the character list? -/
def listContainsSub (pat : List Char) : List Char → Bool
  | [] => pat.isEmpty
  | c :: rest => List.isPrefixOf pat (c :: rest) || listContainsSub pat rest

/-- Case-insensitive search of a regex alternation of plain words
(re.search with re.IGNORECASE over lowercase patterns): true iff some
pattern occurs in the lowercased subject. -/
def searchAnyCI (pats : List String) (s : String) : Bool :=
  pats.any fun p => listContainsSub p.data (s.data.map Char.toLower)

/-- MkvTool._lang_code (src/app/mkv_tools.py:70-80): normalize a language tag.
Falsy input (None or the empty string) yields None; otherwise the tag is
stripped, lowercased and the common Japanese/English variants are canonicalised. -/
def _lang_code (val : Option String) : Option String :=
  match val with
  | none => none
  | some v =>
    if v = "" then none
    else
      let code := pyLower (pyStrip v)
      if code = "ja" ∨ code = "jpn" ∨ code = "japanese" then some "jpn"
      else if code = "en" ∨ code = "eng" ∨ code = "english" then some "eng"
      else some code

/-- MkvTool._is_signs_track (src/app/mkv_tools.py:63-68): a falsy name is not a
signs track; otherwise search the name for signs|songs|lyrics, ignoring case. -/
def _is_signs_track (name : Option String) : Bool :=
  match name with
  | none => false
  | some n => if n = "" then false else searchAnyCI ["signs", "songs", "lyrics"] n

/-- One mkvmerge track record, with the fields the core reads. -/
structure Track where
  id : Nat
  type : String
  language : Option String
  track_name : Option String
  default_track : Bool
deriving DecidableEq

/-- TrackSelection (src/app/models.py): the decision artifact of choose_tracks. -/
structure TrackSelection where
  audio_track_index : Option Nat
  subtitle_track_index : Option Nat
  should_change_audio : Bool
  audio_language_code : Option String
  subtitle_language_code : Option String
deriving DecidableEq

/-- MkvTool._get_default_track_id (src/app/mkv_tools.py:21-29): id of the first
track of the given type whose default_track property is True. -/
def _get_default_track_id (tracks : List Track) (ty : String) : Option Nat :=
  (tracks.find? fun t => t.type == ty && t.default_track).map Track.id

/-- MkvTool.is_file_compliant (src/app/mkv_tools.py:31-61): Japanese default
audio (or a lone audio track) and English default subtitles. -/
def is_file_compliant (tracks : List Track) : Bool :=
  let audio_tracks := tracks.filter fun t => t.type == "audio"
  let audio_ok :=
    if audio_tracks.length = 1 then true
    else
      match _get_default_track_id tracks "audio" with
      | none => false
      | some did =>
        match tracks.find? fun t => t.id == did with
        | none => false
        | some t => _lang_code t.language == some "jpn"
  let has_eng_sub_default :=
    match _get_default_track_id tracks "subtitles" with
    | none => false
    | some did =>
      match tracks.find? fun t => t.id == did with
      | none => false
      | some t => _lang_code t.language == some "eng"
  audio_ok && has_eng_sub_default

/-- Python or on two Optional ints: the left value when it is truthy
(present and nonzero), otherwise the right value. -/
def pyOr (a b : Option Nat) : Option Nat :=
  match a with
  | some n => if n = 0 then b else some n
  | none => b

/-- Python truthiness of an Optional int: present and nonzero. -/
def pyTruthy : Option Nat → Bool
  | some n => n ≠ 0
  | none => false

/-- Stable insertion step: place a before the first element with a key not
smaller than its own, keeping earlier-inserted equal keys behind it. -/
def insertByKey {α : Type} (key : α → Nat) (a : α) : List α → List α
  | [] => [a]
  | b :: bs => if key a ≤ key b then a :: b :: bs else b :: insertByKey key a bs

/-- Python sorted with a numeric key: stable insertion sort built by foldr,
so elements with equal keys keep their original relative order. -/
def pySorted {α : Type} (key : α → Nat) (xs : List α) : List α :=
  xs.foldr (insertByKey key) []

/-- The Japanese-audio candidate of choose_tracks (src/app/mkv_tools.py:92-99):
first audio track whose normalized language is jpn or whose truthy name
matches jap|jpn|japanese case-insensitively. -/
def japanese_audio_id (tracks : List Track) : Option Nat :=
  ((tracks.filter fun t => t.type == "audio").find? fun t =>
    _lang_code t.language == some "jpn" ||
      (match t.track_name with
       | none => false
       | some n => n ≠ "" && searchAnyCI ["jap", "jpn", "japanese"] n)).map Track.id

/-- The English subtitle pool of choose_tracks (src/app/mkv_tools.py:101-106). -/
def english_subs (tracks : List Track) : List Track :=
  (tracks.filter fun t => t.type == "subtitles").filter fun t =>
    _lang_code t.language == some "eng"

/-- The sort key of choose_tracks (src/app/mkv_tools.py:112-117): 0 when the
name (or empty string for a missing name) matches full|dialogue|sdh, else 1. -/
def full_dialogue_key (t : Track) : Nat :=
  if searchAnyCI ["full", "dialogue", "sdh"] (t.track_name.getD "") then 0 else 1

/-- choose_tracks candidate english_full_id (src/app/mkv_tools.py:108-119):
head of the stable sort of the non-signs English subtitles. -/
def english_full_id (tracks : List Track) : Option Nat :=
  ((pySorted full_dialogue_key
      ((english_subs tracks).filter fun t => ! _is_signs_track t.track_name)).head?).map
    Track.id

/-- choose_tracks candidate english_any_id (src/app/mkv_tools.py:120). -/
def english_any_id (tracks : List Track) : Option Nat :=
  ((english_subs tracks).head?).map Track.id

/-- choose_tracks candidate any_sub_id (src/app/mkv_tools.py:121). -/
def any_sub_id (tracks : List Track) : Option Nat :=
  ((tracks.filter fun t => t.type == "subtitles").head?).map Track.id

/-- choose_tracks chosen_sub_idx (src/app/mkv_tools.py:127): the Python
expression english_full_id or english_any_id or any_sub_id, with 0 falsy. -/
def chosen_sub_idx (tracks : List Track) : Option Nat :=
  pyOr (pyOr (english_full_id tracks) (english_any_id tracks)) (any_sub_id tracks)

/-- choose_tracks chosen_sub_lang (src/app/mkv_tools.py:128): eng exactly when
the Python value english_full_id or english_any_id is truthy. -/
def chosen_sub_lang (tracks : List Track) : Option String :=
  if pyTruthy (pyOr (english_full_id tracks) (english_any_id tracks))
  then some "eng" else none

/-- MkvTool.choose_tracks (src/app/mkv_tools.py:82-156): the track selector. -/
def choose_tracks (tracks : List Track) : TrackSelection :=
  if (tracks.filter fun t => t.type == "audio").length = 1 then
    { audio_track_index := none
      subtitle_track_index := chosen_sub_idx tracks
      should_change_audio := false
      audio_language_code := none
      subtitle_language_code := chosen_sub_lang tracks }
  else
    match japanese_audio_id tracks with
    | some jid =>
      { audio_track_index := some jid
        subtitle_track_index := chosen_sub_idx tracks
        should_change_audio := true
        audio_language_code := some "jpn"
        subtitle_language_code := chosen_sub_lang tracks }
    | none =>
      { audio_track_index := none
        subtitle_track_index := chosen_sub_idx tracks
        should_change_audio := false
        audio_language_code := none
        subtitle_language_code := chosen_sub_lang tracks }

/-- Effect on the inventory of the mkvpropedit command list built by
MkvTool.apply_flags (src/app/mkv_tools.py:158-193): when audio is being
changed, clear the default flag of every audio track; always clear the default
flag of every subtitle track; then set the default flag (and, when a truthy
language code is given, the language) on the track whose id is the selected
audio id (when audio is being changed) and on the track whose id is the
selected subtitle id. The commands address tracks purely by id, in this order. -/
def apply_selection (tracks : List Track) (sel : TrackSelection) : List Track :=
  tracks.map fun t0 =>
    let t1 := if sel.should_change_audio && t0.type == "audio"
              then { t0 with default_track := false } else t0
    let t2 := if t1.type == "subtitles"
              then { t1 with default_track := false } else t1
    let t3 := if sel.should_change_audio && sel.audio_track_index == some t2.id
              then { t2 with default_track := true
                             language := match sel.audio_language_code with
                                         | some l => if l = "" then t2.language else some l
                                         | none => t2.language }
              else t2
    if sel.subtitle_track_index == some t3.id
    then { t3 with default_track := true
                   language := match sel.subtitle_language_code with
                               | some l => if l = "" then t3.language else some l
                               | none => t3.language }
    else t3

/-- Python str.split on a single separator character: the list of chunks
between occurrences of the separator (never empty, chunks may be empty). -/
def chSplit (sep : Char) : List Char → List (List Char)
  | [] => [[]]
  | c :: cs =>
    let r := chSplit sep cs
    if c = sep then [] :: r
    else
      match r with
      | [] => [[c]]
      | h :: t => (c :: h) :: t

/-- Join character chunks with a separator character in between. -/
def joinSep (sep : Char) : List (List Char) → List Char
  | [] => []
  | [x] => x
  | x :: y :: ys => x ++ sep :: joinSep sep (y :: ys)

/-- Does the first string start with the second? -/
def strStartsWith (s p : String) : Bool :=
  List.isPrefixOf p.data s.data

/-- Does the first string end with the second? -/
def strEndsWith (s p : String) : Bool :=
  List.isSuffixOf p.data s.data

/-- normalize_path (src/app/utils.py:25-26): pathlib.Path(path).as_posix() on a
POSIX path string. Empty and dot components are dropped, a leading slash (or
the special exactly-double leading slash) is kept as the root, and a path with
no remaining components collapses to the root or to a single dot. -/
def normalize_path (p : String) : String :=
  let comps := (chSplit '/' p.data).filter fun c => !c.isEmpty && c != ['.']
  let root : List Char :=
    if strStartsWith p "//" && !strStartsWith p "///" then ['/', '/']
    else if strStartsWith p "/" then ['/'] else []
  let body := joinSep '/' comps
  if body.isEmpty then (if root.isEmpty then "." else ⟨root⟩) else ⟨root ++ body⟩

/-- Python truthiness of an Optional string: present and nonempty. -/
def pyTruthyStr : Option String → Bool
  | some s => s ≠ ""
  | none => false

/-- The normalized and optionally prefix-rewritten path that is_seeded compares
(src/app/utils.py:45-51): normalize the path; when both PATH_MAP_FROM and
PATH_MAP_TO are truthy in the environment and the normalized path starts with
PATH_MAP_FROM, replace that first occurrence (which the startswith guard pins
to the leading characters, as Python str.replace with count 1 does) by
PATH_MAP_TO and normalize again. getenv is the ambient process environment. -/
def rewritten_path (getenv : String → Option String) (sonarr_path : String) : String :=
  let normalized := normalize_path sonarr_path
  match getenv "PATH_MAP_FROM", getenv "PATH_MAP_TO" with
  | some f, some t =>
    if f ≠ "" && t ≠ "" && strStartsWith normalized f
    then normalize_path (t ++ ⟨normalized.data.drop f.data.length⟩)
    else normalized
  | _, _ => normalized

/-- The final path segment used by is_seeded (src/app/utils.py:57): the last
chunk of the slash-split of the compared path. -/
def last_segment (s : String) : String :=
  ⟨(chSplit '/' s.data).getLastD []⟩

/-- is_seeded (src/app/utils.py:40-67): exact-path membership, then suffix
match of the final path segment against the seeded path set, then membership
of (lowercased final segment, size) in the seeded name/size set when a size is
given. The seeded sets are modelled as lists read only through membership. -/
def is_seeded (getenv : String → Option String) (sonarr_path : String)
    (seeded_paths : List String) (seeded_name_sizes : List (String × Int))
    (size_bytes : Option Int) : Bool :=
  let normalized := rewritten_path getenv sonarr_path
  if normalized ∈ seeded_paths then true
  else
    let sonarr_tail := last_segment normalized
    if seeded_paths.any (fun p => strEndsWith p sonarr_tail) then true
    else
      match size_bytes with
      | some sz => if (pyLower sonarr_tail, sz) ∈ seeded_name_sizes then true else false
      | none => false

/-- The language normalizer as the specification contract words it: absent or
empty input is absent; otherwise the input is trimmed and lowercased, the
Japanese variants map to jpn, the English variants map to eng, and anything
else passes through as the trimmed lowercased string. -/
def normalize_claim (raw : Option String) : Option String :=
  match raw with
  | none => none
  | some s =>
    if s = "" then none
    else
      let c := pyLower (pyStrip s)
      if c ∈ ["ja", "jpn", "japanese"] then some "jpn"
      else if c ∈ ["en", "eng", "english"] then some "eng"
      else some c

/-- The compliance check on one track type as the claim words it: the first
track of that type in inventory order whose default flag is set must exist and
its normalized language must be the given one. -/
def default_of_type_lang_ok (tracks : List Track) (ty lang : String) : Bool :=
  match tracks.find? fun t => t.type == ty && t.default_track with
  | none => false
  | some t => _lang_code t.language == some lang

/-- The compliance predicate as the claim words it: the audio check passes when
exactly one audio track exists or the first default-flagged audio track is
Japanese; the subtitle check passes when the first default-flagged subtitle
track is English. -/
def isCompliant_claim (tracks : List Track) : Bool :=
  (decide ((tracks.filter fun t => t.type == "audio").length = 1)
    || default_of_type_lang_ok tracks "audio" "jpn")
  && default_of_type_lang_ok tracks "subtitles" "eng"

/-- Finding a track by the id of a track found by a predicate returns that very
track when the inventory's ids are unique. -/
theorem find_by_id_of_nodup (p : Track → Bool) :
    ∀ (tracks : List Track), (tracks.map Track.id).Nodup →
      ∀ t : Track, tracks.find? p = some t →
        (tracks.find? fun u => u.id == t.id) = some t := by
  intro tracks
  induction tracks with
  | nil => intro _ t ht; simp at ht
  | cons a l ih =>
    intro hnd t ht
    have hnd' := hnd
    rw [List.map_cons, List.nodup_cons] at hnd'
    by_cases hpa : p a = true
    · rw [List.find?_cons_of_pos _ hpa] at ht
      injection ht with hat
      subst hat
      exact List.find?_cons_of_pos _ (by simp)
    · rw [List.find?_cons_of_neg _ (by simp [hpa])] at ht
      have htl : t ∈ l := List.mem_of_find?_eq_some ht
      have hne : a.id ≠ t.id := by
        intro hid
        exact hnd'.1 (hid ▸ List.mem_map_of_mem Track.id htl)
      rw [List.find?_cons_of_neg _ (by simp [hne])]
      exact ih hnd'.2 t ht

/-- C4: is_file_compliant holds iff the audio check passes (exactly one audio
track, or the first default-flagged audio track exists and is Japanese) and the
subtitle check passes (the first default-flagged subtitle track exists and is
English); consequently an inventory with no subtitle tracks is never compliant.
The inventory's track ids are assumed unique, as the data-model invariant
states. -/
theorem claim4_compliance_spec (tracks : List Track)
    (h : (tracks.map Track.id).Nodup) :
    is_file_compliant tracks = isCompliant_claim tracks ∧
    ((tracks.filter fun t => t.type == "subtitles") = [] →
      is_file_compliant tracks = false) := by
  have haux : ∀ ty lang,
      (match _get_default_track_id tracks ty with
       | none => false
       | some did =>
         match tracks.find? fun t => t.id == did with
         | none => false
         | some t => _lang_code t.language == some lang) =
      default_of_type_lang_ok tracks ty lang := by
    intro ty lang
    unfold _get_default_track_id default_of_type_lang_ok
    cases hf : tracks.find? fun t => t.type == ty && t.default_track with
    | none => simp
    | some t =>
      simp only [Option.map_some']
      rw [find_by_id_of_nodup _ tracks h t hf]
  have hsubnone : (tracks.filter fun t => t.type == "subtitles") = [] →
      (tracks.find? fun t => t.type == "subtitles" && t.default_track) = none := by
    intro hsub
    rw [List.find?_eq_none]
    intro t htmem hp
    have htf : t ∈ tracks.filter fun u => u.type == "subtitles" := by
      rw [List.mem_filter]
      refine ⟨htmem, ?_⟩
      simp only [Bool.and_eq_true] at hp
      exact hp.1
    rw [hsub] at htf
    simp at htf
  constructor
  · unfold is_file_compliant isCompliant_claim
    simp only [haux]
    by_cases hlen : (tracks.filter fun t => t.type == "audio").length = 1
    · simp [hlen]
    · simp [hlen]
  · intro hsub
    unfold is_file_compliant _get_default_track_id
    rw [hsubnone hsub]
    simp

/-- Witness inventory for the compliance claims: two audio tracks with a
Japanese default and one English default subtitle track. -/
def ex_compliant : List Track :=
  [⟨0, "audio", some "jpn", none, true⟩,
   ⟨1, "audio", some "eng", none, false⟩,
   ⟨2, "subtitles", some "eng", none, true⟩]

/-- Witness for C4 at a concrete inventory with unique ids. -/
theorem claim4_witness :
    ((ex_compliant.map Track.id).Nodup ∧
      is_file_compliant ex_compliant = isCompliant_claim ex_compliant) ∧
    ((ex_compliant.filter fun t => t.type == "subtitles") = [] →
      is_file_compliant ex_compliant = false) :=
  ⟨⟨by decide, (claim4_compliance_spec ex_compliant (by decide)).1⟩,
    (claim4_compliance_spec ex_compliant (by decide)).2⟩

/-- C7: on an inventory with exactly one audio track, choose_tracks never
changes audio: it returns should_change_audio false with absent audio track
index and audio language, while the subtitle decision (chosen index and
language) is the unchanged common subtitle computation. -/
theorem claim7_single_audio_untouched (tracks : List Track)
    (h : (tracks.filter fun t => t.type == "audio").length = 1) :
    choose_tracks tracks =
      { audio_track_index := none
        subtitle_track_index := chosen_sub_idx tracks
        should_change_audio := false
        audio_language_code := none
        subtitle_language_code := chosen_sub_lang tracks } := by
  unfold choose_tracks
  rw [if_pos h]

/-- Witness inventory for C7: a single Japanese audio track plus one subtitle. -/
def ex_single_audio : List Track :=
  [⟨0, "audio", some "jpn", none, false⟩,
   ⟨1, "subtitles", some "eng", none, false⟩]

/-- Witness for C7 at a concrete single-audio inventory. -/
theorem claim7_witness :
    (ex_single_audio.filter fun t => t.type == "audio").length = 1 ∧
    choose_tracks ex_single_audio =
      { audio_track_index := none
        subtitle_track_index := chosen_sub_idx ex_single_audio
        should_change_audio := false
        audio_language_code := none
        subtitle_language_code := chosen_sub_lang ex_single_audio } :=
  ⟨by decide, claim7_single_audio_untouched ex_single_audio (by decide)⟩

/-- C8: the language normalizer agrees everywhere with the specification
contract: absent or empty input is absent, otherwise the trimmed lowercased
tag is canonicalised through the Japanese and English variant tables and any
other value passes through unchanged; being a total Lean function it raises
no exception on any input. -/
theorem claim8_normalizer_spec (raw : Option String) :
    _lang_code raw = normalize_claim raw := by
  unfold _lang_code normalize_claim
  cases raw with
  | none => rfl
  | some s =>
    by_cases hs : s = ""
    · simp [hs]
    · simp only [if_neg hs, List.mem_cons, List.not_mem_nil, or_false]

/-- C9: invariants of every selection returned by choose_tracks: audio is
being changed exactly when an audio track index is present, the audio language
code is jpn exactly when audio is being changed and absent otherwise, and the
subtitle language code is always eng or absent. -/
theorem claim9_selection_invariants (tracks : List Track) :
    ((choose_tracks tracks).should_change_audio = true ↔
      ((choose_tracks tracks).audio_track_index).isSome = true) ∧
    ((choose_tracks tracks).audio_language_code =
      if (choose_tracks tracks).should_change_audio then some "jpn" else none) ∧
    ((choose_tracks tracks).subtitle_language_code = some "eng" ∨
      (choose_tracks tracks).subtitle_language_code = none) := by
  have hlang : chosen_sub_lang tracks = some "eng" ∨ chosen_sub_lang tracks = none := by
    unfold chosen_sub_lang
    by_cases hc : pyTruthy (pyOr (english_full_id tracks) (english_any_id tracks)) = true
    · exact Or.inl (by rw [if_pos hc])
    · exact Or.inr (by rw [if_neg hc])
  unfold choose_tracks
  split
  · exact ⟨by simp, by simp, hlang⟩
  · split
    · exact ⟨by simp, by simp, hlang⟩
    · exact ⟨by simp, by simp, hlang⟩

/-- C10: a non-empty input consisting only of whitespace normalizes to the
present empty string, and the absent result arises only from absent or
exactly-empty input. -/
theorem claim10_whitespace_passthrough (s : String) (h1 : s ≠ "")
    (h2 : ∀ c ∈ s.data, c.isWhitespace) :
    _lang_code (some s) = some "" ∧
    ∀ v, _lang_code v = none → v = none ∨ v = some "" := by
  constructor
  · have hdrop : s.data.dropWhile Char.isWhitespace = [] :=
      List.dropWhile_eq_nil_iff.mpr h2
    have hstrip : pyStrip s = "" := by
      unfold pyStrip
      rw [hdrop]
      rfl
    have hlow : pyLower (pyStrip s) = "" := by rw [hstrip]; rfl
    unfold _lang_code
    dsimp only
    rw [if_neg h1]
    simp only [hlow]
    decide
  · intro v hv
    match v with
    | none => exact Or.inl rfl
    | some t =>
      by_cases ht : t = ""
      · exact Or.inr (by rw [ht])
      · exfalso
        unfold _lang_code at hv
        dsimp only at hv
        rw [if_neg ht] at hv
        split at hv
        · exact Option.noConfusion hv
        · split at hv
          · exact Option.noConfusion hv
          · exact Option.noConfusion hv

/-- Witness for C10 at the one-space string. -/
theorem claim10_witness :
    (" " ≠ "" ∧ ∀ c ∈ (" " : String).data, c.isWhitespace) ∧
    (_lang_code (some " ") = some "" ∧
      ∀ v, _lang_code v = none → v = none ∨ v = some "") :=
  ⟨⟨by decide, by decide⟩, claim10_whitespace_passthrough " " (by decide) (by decide)⟩

/-- C5: is_seeded holds exactly when one of the three strategies matches: the
normalized (and, when a rewrite is configured, rewritten) path is a member of
the path set; some path of the path set ends with that path's final segment;
or the size is present and the pair of lowercased final segment and size is a
member of the name/size set. The third strategy is reached whenever the first
two fail, also with an empty path set, and with no match the result is false. -/
theorem claim5_seeded_strategies (getenv : String → Option String)
    (sonarr_path : String) (seeded_paths : List String)
    (seeded_name_sizes : List (String × Int)) (size_bytes : Option Int) :
    is_seeded getenv sonarr_path seeded_paths seeded_name_sizes size_bytes = true ↔
      (rewritten_path getenv sonarr_path ∈ seeded_paths ∨
        (∃ p ∈ seeded_paths,
          strEndsWith p (last_segment (rewritten_path getenv sonarr_path)) = true) ∨
        (∃ sz, size_bytes = some sz ∧
          (pyLower (last_segment (rewritten_path getenv sonarr_path)), sz)
            ∈ seeded_name_sizes)) := by
  unfold is_seeded
  cases size_bytes with
  | none =>
    by_cases h1 : rewritten_path getenv sonarr_path ∈ seeded_paths
    · simp [h1]
    · simp [h1, List.any_eq_true]
  | some sz =>
    by_cases h1 : rewritten_path getenv sonarr_path ∈ seeded_paths
    · simp [h1]
    · by_cases h3 :
        (pyLower (last_segment (rewritten_path getenv sonarr_path)), sz)
          ∈ seeded_name_sizes
      · simp [h1, h3, List.any_eq_true]
      · simp [h1, h3, List.any_eq_true]

/-- Ambient environment with no variables set. -/
def env_empty : String → Option String := fun _ => none

/-- Ambient environment configuring a path-prefix rewrite whose source prefix
reaches into the basename, so the rewrite changes the compared final segment. -/
def env_rewrite : String → Option String := fun k =>
  if k = "PATH_MAP_FROM" then some "/downloads/ep"
  else if k = "PATH_MAP_TO" then some "/other/xx"
  else none

/-- C6 counterexample: with identical catalog path, size and SeedIndex,
is_seeded answers true under an empty environment and false under an
environment configuring a path-prefix rewrite, so the result is not
independent of ambient environment state. -/
theorem claim6_counterexample :
    is_seeded env_empty "/downloads/ep.mkv" ["/seed/ep.mkv"] [] none = true ∧
    is_seeded env_rewrite "/downloads/ep.mkv" ["/seed/ep.mkv"] [] none = false :=
  ⟨by decide, by decide⟩

/-- C6 amended: under ambient environments agreeing on PATH_MAP_FROM and
PATH_MAP_TO, is_seeded returns the same boolean for the same three inputs, and
as a pure function of its arguments it leaves the SeedIndex sets untouched. -/
theorem claim6_env_determinism (e1 e2 : String → Option String)
    (h1 : e1 "PATH_MAP_FROM" = e2 "PATH_MAP_FROM")
    (h2 : e1 "PATH_MAP_TO" = e2 "PATH_MAP_TO")
    (sonarr_path : String) (seeded_paths : List String)
    (seeded_name_sizes : List (String × Int)) (size_bytes : Option Int) :
    is_seeded e1 sonarr_path seeded_paths seeded_name_sizes size_bytes =
      is_seeded e2 sonarr_path seeded_paths seeded_name_sizes size_bytes := by
  unfold is_seeded rewritten_path
  rw [h1, h2]

/-- Ambient environment agreeing with env_adjb on the two rewrite variables
while differing on every other variable. -/
def env_adja : String → Option String := fun k =>
  if k = "PATH_MAP_FROM" then some "/a"
  else if k = "PATH_MAP_TO" then some "/b"
  else some "unrelated"

/-- Ambient environment agreeing with env_adja on the two rewrite variables. -/
def env_adjb : String → Option String := fun k =>
  if k = "PATH_MAP_FROM" then some "/a"
  else if k = "PATH_MAP_TO" then some "/b"
  else none

/-- Witness for the amended C6 at two concrete environments that agree on the
rewrite configuration but differ elsewhere. -/
theorem claim6_witness :
    (env_adja "PATH_MAP_FROM" = env_adjb "PATH_MAP_FROM" ∧
      env_adja "PATH_MAP_TO" = env_adjb "PATH_MAP_TO") ∧
    is_seeded env_adja "/a/x.mkv" ["/b/x.mkv"] [] none =
      is_seeded env_adjb "/a/x.mkv" ["/b/x.mkv"] [] none :=
  ⟨⟨by decide, by decide⟩,
    claim6_env_determinism env_adja env_adjb (by decide) (by decide)
      "/a/x.mkv" ["/b/x.mkv"] [] none⟩

/-- Does the inventory contain a Japanese audio candidate in the sense of the
selector: an audio track with normalized language jpn or a truthy name
matching jap|jpn|japanese case-insensitively? -/
def has_japanese_audio_candidate (tracks : List Track) : Bool :=
  (tracks.filter fun t => t.type == "audio").any fun t =>
    _lang_code t.language == some "jpn" ||
      (match t.track_name with
       | none => false
       | some n => n ≠ "" && searchAnyCI ["jap", "jpn", "japanese"] n)

/-- Does the inventory contain an English subtitle candidate: a subtitle track
whose normalized language is eng? -/
def has_english_sub_candidate (tracks : List Track) : Bool :=
  (tracks.filter fun t => t.type == "subtitles").any fun t =>
    _lang_code t.language == some "eng"

/-- Failing inventory for the round-trip claim: a Japanese audio track, a
wrongly-defaulted English audio track, a French subtitle track first and an
English subtitle track whose id is 0. -/
def cex_roundtrip : List Track :=
  [⟨1, "audio", some "jpn", none, false⟩,
   ⟨2, "audio", some "eng", none, true⟩,
   ⟨5, "subtitles", some "fre", none, false⟩,
   ⟨0, "subtitles", some "eng", none, false⟩]

/-- C1: evaluation at the failing inventory: it is non-compliant and holds both
a Japanese audio candidate and an English subtitle candidate, yet applying the
selection returned by choose_tracks leaves it non-compliant, because the
or-chain of track ids treats the English candidate id 0 as falsy and falls
through to the French subtitle track without stamping a language. -/
theorem claim1_roundtrip_failing_eval :
    is_file_compliant cex_roundtrip = false ∧
    has_japanese_audio_candidate cex_roundtrip = true ∧
    has_english_sub_candidate cex_roundtrip = true ∧
    (choose_tracks cex_roundtrip).subtitle_track_index = some 5 ∧
    is_file_compliant (apply_selection cex_roundtrip (choose_tracks cex_roundtrip)) =
      false := by
  refine ⟨by decide, by decide, by decide, by decide, by decide⟩

/-- Failing inventory for the subtitle priority chain: a non-English subtitle
track first, then a non-signs English subtitle track whose id is 0. -/
def cex_chain : List Track :=
  [⟨5, "subtitles", some "fre", none, false⟩,
   ⟨0, "subtitles", some "eng", none, false⟩]

/-- C2: evaluation at the failing inventory: exactly one non-signs English
subtitle track exists and its id is 0, so the claimed priority chain selects
id 0, but choose_tracks returns id 5 (the any-language fallback) because the
or-chain treats the id value 0 as falsy. -/
theorem claim2_priority_chain_failing_eval :
    ((cex_chain.filter fun t => t.type == "subtitles" &&
        (_lang_code t.language == some "eng") &&
        ! _is_signs_track t.track_name).map Track.id) = [0] ∧
    (choose_tracks cex_chain).subtitle_track_index = some 5 := by
  refine ⟨by decide, by decide⟩

/-- Failing inventory for the subtitle language stamp: a single English
subtitle track whose id is 0. -/
def cex_stamp : List Track :=
  [⟨0, "subtitles", some "eng", none, false⟩]

/-- C3: evaluation at the failing inventory: the chosen subtitle track id 0 is
the unique English-tagged subtitle track, yet choose_tracks leaves the
subtitle language absent because the truthiness test on the or-chain of ids
treats id 0 as no English candidate. -/
theorem claim3_sub_lang_failing_eval :
    ((cex_stamp.filter fun t => t.type == "subtitles" &&
        (_lang_code t.language == some "eng")).map Track.id) = [0] ∧
    (choose_tracks cex_stamp).subtitle_track_index = some 0 ∧
    (choose_tracks cex_stamp).subtitle_language_code = none := by
  refine ⟨by decide, by decide, by decide⟩
